import Mathlib

set_option autoImplicit false

namespace McpBi

/-! Shallow embedding of the token-backed request execution core of the
mcp-bi-connector repository (src/powerbi_server.py, src/railway_app.py,
src/function_app.py).  The three files are near-identical copies of one
code path; where they differ (credential guard in get_access_token,
bounded vs unbounded polling loop) both variants are embedded, under the
namespaces Powerbi (powerbi_server.py, whose auth and poller code
function_app.py copies verbatim) and Railway (railway_app.py, whose
dispatcher code function_app.py copies verbatim).

Network I/O is modelled by explicit environments: each requests.get /
requests.post performed by a function is given its outcome as data, and
each function additionally returns the final value of the process-global
TOKEN variable and a count (or log) of the network calls it issued.
Dynamic typing errors that malformed JSON would raise in Python
(iterating a non-list, indexing a non-dict) are outside the model: the
response bodies are JSON values and dictionary lookups on non-objects
take the code path of an absent key. -/

/-- JSON values, as returned by response.json(). -/
inductive J where
  | null
  | bool (b : Bool)
  | num (n : Int)
  | str (s : String)
  | arr (xs : List J)
  | obj (fields : List (String × J))

/-- First binding of a key in an association list (Python dict lookup). -/
def lookupFields : List (String × J) → String → Option J
  | [], _ => none
  | (k, v) :: rest, key => if k = key then some v else lookupFields rest key

/-- Python `key in d` / `d.get(key)` on a JSON object; `none` elsewhere. -/
def J.lookup : J → String → Option J
  | .obj fs, key => lookupFields fs key
  | _, _ => none

/-- Python `d.get(key, default)`. -/
def J.getD (j : J) (key : String) (d : J) : J :=
  (j.lookup key).getD d

/-- Underlying list of a JSON array (the code only applies list operations
to values that are arrays; other shapes take the empty-list path). -/
def J.asList : J → List J
  | .arr xs => xs
  | _ => []

/-- Underlying string of a JSON string (the code only applies str methods
to values that are strings; other shapes take the empty-string path). -/
def J.asStr : J → String
  | .str s => s
  | _ => ""

/-- Python s.endswith(suffix), stated over the character lists of the
strings. -/
def strEndsWith (s suffix : String) : Bool :=
  List.isSuffixOf suffix.data s.data

/-- Minimal JSON string escaping used by the serializer below. -/
def escapeString (s : String) : String :=
  s.foldl (fun acc c =>
    if c = '\\' then acc ++ "\\\\"
    else if c = '"' then acc ++ "\\\""
    else if c = '\n' then acc ++ "\\n"
    else acc ++ String.singleton c) ""

/-- Spaces of the given width, for indentation. -/
def indentSpaces (n : Nat) : String :=
  String.mk (List.replicate n ' ')

mutual

/-- Models Python json.dumps(value, indent=2): a pretty-printed JSON
serialization with two-space indentation, at current indentation `ind`. -/
def J.dumps (ind : Nat) : J → String
  | .null => "null"
  | .bool true => "true"
  | .bool false => "false"
  | .num n => toString n
  | .str s => "\"" ++ escapeString s ++ "\""
  | .arr [] => "[]"
  | .arr xs => "[\n" ++ J.dumpsArr (ind + 2) xs ++ "\n" ++ indentSpaces ind ++ "]"
  | .obj [] => "\x7b\x7d"
  | .obj fs => "\x7b\n" ++ J.dumpsObj (ind + 2) fs ++ "\n" ++ indentSpaces ind ++ "\x7d"

/-- Array elements of the serialization, one per line. -/
def J.dumpsArr (ind : Nat) : List J → String
  | [] => ""
  | [x] => indentSpaces ind ++ J.dumps ind x
  | x :: y :: rest =>
      indentSpaces ind ++ J.dumps ind x ++ ",\n" ++ J.dumpsArr ind (y :: rest)

/-- Object fields of the serialization, one per line. -/
def J.dumpsObj (ind : Nat) : List (String × J) → String
  | [] => ""
  | [(k, v)] => indentSpaces ind ++ "\"" ++ escapeString k ++ "\": " ++ J.dumps ind v
  | (k, v) :: f :: rest =>
      indentSpaces ind ++ "\"" ++ escapeString k ++ "\": " ++ J.dumps ind v
        ++ ",\n" ++ J.dumpsObj ind (f :: rest)

end

/-- Python str() of a JSON value, as used inside f-strings such as
f"Error: {result[..]}".  The claims only exercise string values; the
container cases reuse the JSON serializer rather than the exact Python
repr formatting. -/
def pyStr : J → String
  | .str s => s
  | .num n => toString n
  | .bool true => "True"
  | .bool false => "False"
  | .null => "None"
  | j => J.dumps 0 j

/-- The dict {"error": msg} that the helpers return on failure. -/
def errDict (msg : String) : J :=
  J.obj [("error", J.str msg)]

/-- The three required Azure App Registration secrets, read once from the
process environment (CLIENT_ID, CLIENT_SECRET, TENANT_ID; os.environ.get
defaults each to the empty string when absent). -/
structure Creds where
  clientId : String
  clientSecret : String
  tenantId : String

/-- Parsed body of an ok identity-endpoint response; access_token is
`none` when the body lacks that key (token_data[..] then raises KeyError,
which the except handler catches). -/
structure TokenBody where
  access_token : Option String

/-- Outcome of one POST to the identity token endpoint.  `exn` covers any
exception raised inside the try block (connection failure, or
response.json() failing to parse); `httpErr` is a non-ok HTTP status. -/
inductive TokenResp where
  | exn (msg : String)
  | httpErr (status : Nat) (text : String)
  | ok (body : TokenBody)

/-- The access token carried by an identity-endpoint outcome, when the
exchange is a success response containing one. -/
def tokenOf : TokenResp → Option String
  | .ok body => body.access_token
  | _ => none

/-- powerbi_server.py get_access_token (function_app.py is identical):
posts the client-credentials form built from the Creds with no prior
credential check, stores the returned access_token in the global TOKEN on
success, and returns False on any failure, leaving TOKEN untouched.
Returns (success, new TOKEN, number of identity-endpoint posts). -/
def Powerbi.get_access_token (_c : Creds) (resp : TokenResp) (tok : String) :
    Bool × String × Nat :=
  match resp with
  | .ok body =>
      match body.access_token with
      | some t => (true, t, 1)
      | none => (false, tok, 1)
  | .httpErr _ _ => (false, tok, 1)
  | .exn _ => (false, tok, 1)

/-- powerbi_server.py ensure_token: `if not TOKEN: return
get_access_token(); return True` — an empty cached token delegates to the
exchange, a non-empty one succeeds with no network call. -/
def Powerbi.ensure_token (c : Creds) (resp : TokenResp) (tok : String) :
    Bool × String × Nat :=
  if tok = "" then Powerbi.get_access_token c resp tok else (true, tok, 0)

/-- railway_app.py get_access_token: identical to the powerbi_server
variant except that it first checks the three credentials and returns
False with no network call when any is empty. -/
def Railway.get_access_token (c : Creds) (resp : TokenResp) (tok : String) :
    Bool × String × Nat :=
  if c.clientId = "" ∨ c.clientSecret = "" ∨ c.tenantId = "" then (false, tok, 0)
  else
    match resp with
    | .ok body =>
        match body.access_token with
        | some t => (true, t, 1)
        | none => (false, tok, 1)
    | .httpErr _ _ => (false, tok, 1)
    | .exn _ => (false, tok, 1)

/-- railway_app.py ensure_token, same text as the powerbi_server one. -/
def Railway.ensure_token (c : Creds) (resp : TokenResp) (tok : String) :
    Bool × String × Nat :=
  if tok = "" then Railway.get_access_token c resp tok else (true, tok, 0)

/-- test_connection (identical in all three files): calls
get_access_token directly — never ensure_token — and maps its Boolean
result to one of two fixed strings.  This is the powerbi_server variant. -/
def Powerbi.test_connection (c : Creds) (resp : TokenResp) (tok : String) :
    String × String × Nat :=
  match Powerbi.get_access_token c resp tok with
  | (true, tok1, n) => ("Authentication successful! Token obtained and ready to use.", tok1, n)
  | (false, tok1, n) => ("Authentication failed! Check your client credentials.", tok1, n)

/-- test_connection, railway_app.py variant (differs only through its
get_access_token performing the credential guard). -/
def Railway.test_connection (c : Creds) (resp : TokenResp) (tok : String) :
    String × String × Nat :=
  match Railway.get_access_token c resp tok with
  | (true, tok1, n) => ("Authentication successful! Token obtained and ready to use.", tok1, n)
  | (false, tok1, n) => ("Authentication failed! Check your client credentials.", tok1, n)

/-- Outcome of one issue of a platform request inside make_request.
`exn` covers any exception the try block catches for that attempt
(connection failure, or response.json() failing on an ok response);
`resp` carries the HTTP status, response.text and the parsed body. -/
inductive ReqOutcome where
  | exn (msg : String)
  | resp (status : Nat) (text : String) (json : J)

/-- Environment of one make_request call: the identity-endpoint outcome
consumed if ensure_token has to exchange, the outcome of the first issue
of the request, the identity-endpoint outcome consumed by the forced
(401-triggered) get_access_token call, and the outcome of the re-issued
request. -/
structure MkEnv where
  ensureResp : TokenResp
  attempt1 : ReqOutcome
  forcedResp : TokenResp
  attempt2 : ReqOutcome

/-- One platform HTTP request as issued: URL, method, JSON body of the
POST (none for GET), and the bearer token in the Authorization header. -/
structure Request where
  url : String
  method : String
  body : Option J
  bearer : String

/-- Result of make_request: the returned dict (the response body on
success, or {"error": ...}), the final TOKEN, the platform requests
issued in order, the number of identity-endpoint posts, and the number of
forced (401-triggered) get_access_token calls. -/
structure MRout where
  result : J
  token : String
  requests : List Request
  idPosts : Nat
  forcedExch : Nat

/-- Total network calls issued by a make_request call. -/
def MRout.calls (o : MRout) : Nat :=
  o.idPosts + o.requests.length

/-- The body of make_request, shared verbatim by all three files; they
differ only in which globals ensure_token / get_access_token resolve to,
passed here as functions of the identity-endpoint outcome and the cached
token.  Mirrors src/railway_app.py lines 82-115: ensure_token first
(failing fast with {"error": "Failed to obtain access token"}), one issue
of the request, on ok return response.json(), on 401 one forced
get_access_token and (only if it succeeds) one re-issue whose ok body is
returned; every other path returns {"error": f"HTTP {status}: {text
truncated to 200 characters}"} built from the latest response, and an
exception gives {"error": str(e)}. -/
def make_request_core (ensure gat : TokenResp → String → Bool × String × Nat)
    (env : MkEnv) (url method : String) (data : Option J) (tok : String) : MRout :=
  match ensure env.ensureResp tok with
  | (false, tok1, n1) => ⟨errDict "Failed to obtain access token", tok1, [], n1, 0⟩
  | (true, tok1, n1) =>
    let req1 : Request := ⟨url, method, data, tok1⟩
    match env.attempt1 with
    | .exn m => ⟨errDict m, tok1, [req1], n1, 0⟩
    | .resp st text js =>
      if st < 400 then ⟨js, tok1, [req1], n1, 0⟩
      else if st = 401 then
        match gat env.forcedResp tok1 with
        | (true, tok2, nf) =>
          let req2 : Request := ⟨url, method, data, tok2⟩
          match env.attempt2 with
          | .exn m => ⟨errDict m, tok2, [req1, req2], n1 + nf, 1⟩
          | .resp st2 text2 js2 =>
            if st2 < 400 then ⟨js2, tok2, [req1, req2], n1 + nf, 1⟩
            else ⟨errDict ("HTTP " ++ toString st2 ++ ": " ++ text2.take 200),
                  tok2, [req1, req2], n1 + nf, 1⟩
        | (false, tok2, nf) =>
          ⟨errDict ("HTTP " ++ toString st ++ ": " ++ text.take 200),
            tok2, [req1], n1 + nf, 1⟩
      else ⟨errDict ("HTTP " ++ toString st ++ ": " ++ text.take 200), tok1, [req1], n1, 0⟩

/-- make_request of powerbi_server.py / function_app.py. -/
def Powerbi.make_request (env : MkEnv) (c : Creds) (url method : String)
    (data : Option J) (tok : String) : MRout :=
  make_request_core (Powerbi.ensure_token c) (Powerbi.get_access_token c) env url method data tok

/-- make_request of railway_app.py. -/
def Railway.make_request (env : MkEnv) (c : Creds) (url method : String)
    (data : Option J) (tok : String) : MRout :=
  make_request_core (Railway.ensure_token c) (Railway.get_access_token c) env url method data tok

/-- Outcome of the i-th poll of the operation status URL: its HTTP
status, and on an ok response the status field of the body (Python
data.get with default empty string) and the error field, if any (the
source defaults it to "Operation failed"; a non-string error payload is
not modelled). -/
structure PollResp where
  status : Nat
  opStatus : String
  errField : Option String

/-- Environment of one wait_for_operation call: the outcome of each poll
of the status URL by index, and the /result sub-resource fetch outcome,
`some body` when ok and `none` otherwise. -/
structure PollEnv where
  poll : Nat → PollResp
  resultResp : Option J

/-- Polling loop of railway_app.py wait_for_operation (lines 126-142),
recursing on the remaining retries with i the index of the next poll.
Returns the dict the loop produces and the number of GETs issued.  Fuel 0
is the loop exit, yielding {"error": "Operation timed out"}. -/
def Railway.waitLoop (env : PollEnv) : Nat → Nat → J × Nat
  | _, 0 => (errDict "Operation timed out", 0)
  | i, n + 1 =>
    let r := env.poll i
    if r.status < 400 then
      if r.opStatus = "Succeeded" then
        match env.resultResp with
        | some j => (j, 2)
        | none => (errDict "Failed to get result", 2)
      else if r.opStatus = "Failed" then
        (errDict (r.errField.getD "Operation failed"), 1)
      else
        let (j, k) := Railway.waitLoop env (i + 1) n
        (j, k + 1)
    else (errDict ("Failed to check status: " ++ toString r.status), 1)

/-- The fixed retry bound of railway_app.py wait_for_operation. -/
def Railway.max_retries : Nat := 5

/-- railway_app.py wait_for_operation: ensure_token first, then at most
max_retries polls.  The status URL and the Retry-After sleep interval
select which endpoint the environment stands for and how long each poll
sleeps; real time is not modelled.  Returns the dict, the final TOKEN and
the number of network calls. -/
def Railway.wait_for_operation (env : PollEnv) (ensureResp : TokenResp)
    (c : Creds) (tok : String) : J × String × Nat :=
  match Railway.ensure_token c ensureResp tok with
  | (false, tok1, n1) => (errDict "Failed to obtain access token", tok1, n1)
  | (true, tok1, n1) =>
    let (j, k) := Railway.waitLoop env 0 Railway.max_retries
    (j, tok1, n1 + k)

/-- Fuel-indexed unfolding of the polling loop of powerbi_server.py
wait_for_operation (lines 127-143; function_app.py lines 109-125), which
is `while True` with NO retry bound: `none` means the loop has not
returned within the given number of iterations. -/
def Powerbi.waitLoopF (env : PollEnv) : Nat → Nat → Option J
  | _, 0 => none
  | i, n + 1 =>
    let r := env.poll i
    if r.status < 400 then
      if r.opStatus = "Succeeded" then
        match env.resultResp with
        | some j => some j
        | none => some (errDict "Failed to get result")
      else if r.opStatus = "Failed" then
        some (errDict (r.errField.getD "Operation failed"))
      else Powerbi.waitLoopF env (i + 1) n
    else some (errDict ("Failed to check status: " ++ toString r.status))

/-- Base URL of the Power BI REST API. -/
def POWERBI_API : String := "https://api.powerbi.com/v1.0/myorg"

/-- Base URL of the Fabric REST API. -/
def FABRIC_API : String := "https://api.fabric.microsoft.com/v1"

/-- Message of the KeyError raised by d[key] on a missing key.  Python
renders str(KeyError(key)) as the key wrapped in quote characters; the
exact quoting is not reproduced here. -/
def keyErrorMsg (k : String) : String := "KeyError: " ++ k

/-- Python d[key] on a JSON object: the value, or a KeyError. -/
def J.item (j : J) (k : String) : Except String J :=
  match j.lookup k with
  | some v => .ok v
  | none => .error (keyErrorMsg k)

/-- The formatting loop shared by list_workspaces and list_datasets:
for each entry append a bullet line from its name and id fields; a
missing field raises KeyError out of the tool function. -/
def bulletLines : List J → Except String String
  | [] => .ok ""
  | w :: ws => do
      let name ← w.item "name"
      let id ← w.item "id"
      let rest ← bulletLines ws
      .ok ("• " ++ pyStr name ++ " (ID: " ++ pyStr id ++ ")\n" ++ rest)

/-- list_workspaces (identical in all three files; railway_app.py lines
148-163): GET {POWERBI_API}/groups through make_request; an error dict is
rendered as the text "Error: ...", an empty value collection as the fixed
string, otherwise a count header plus bullet lines.  Returns the text (or
an escaping exception), the final TOKEN and the network call count. -/
def Railway.list_workspaces (env : MkEnv) (c : Creds) (tok : String) :
    Except String String × String × Nat :=
  let o := Railway.make_request env c (POWERBI_API ++ "/groups") "GET" none tok
  match o.result.lookup "error" with
  | some e => (.ok ("Error: " ++ pyStr e), o.token, o.calls)
  | none =>
    let workspaces := (o.result.getD "value" (J.arr [])).asList
    if workspaces.isEmpty then (.ok "No workspaces found", o.token, o.calls)
    else
      match bulletLines workspaces with
      | .ok lines =>
          (.ok ("Found " ++ toString workspaces.length ++ " workspaces:\n\n" ++ lines),
            o.token, o.calls)
      | .error m => (.error m, o.token, o.calls)

/-- list_datasets (railway_app.py lines 165-180), same shape as
list_workspaces against the datasets collection of one workspace. -/
def Railway.list_datasets (env : MkEnv) (c : Creds) (workspace_id : String)
    (tok : String) : Except String String × String × Nat :=
  let o := Railway.make_request env c
    (POWERBI_API ++ "/groups/" ++ workspace_id ++ "/datasets") "GET" none tok
  match o.result.lookup "error" with
  | some e => (.ok ("Error: " ++ pyStr e), o.token, o.calls)
  | none =>
    let datasets := (o.result.getD "value" (J.arr [])).asList
    if datasets.isEmpty then (.ok "No datasets found in this workspace", o.token, o.calls)
    else
      match bulletLines datasets with
      | .ok lines =>
          (.ok ("Found " ++ toString datasets.length ++ " datasets:\n\n" ++ lines),
            o.token, o.calls)
      | .error m => (.error m, o.token, o.calls)

/-- The single-query request body {"queries": [{"query": query}]} that
execute_dax_query posts. -/
def daxBody (query : String) : J :=
  J.obj [("queries", J.arr [J.obj [("query", J.str query)]])]

/-- execute_dax_query (railway_app.py lines 227-240): POST the wrapped
query through make_request; an error dict renders as "Error: ...";
otherwise, when the results array is non-empty and its first element has
a tables key, return json.dumps of that tables value with indent=2, else
the fixed "No data returned". -/
def Railway.execute_dax_query (env : MkEnv) (c : Creds)
    (workspace_id dataset_id query tok : String) :
    Except String String × String × Nat :=
  let o := Railway.make_request env c
    (POWERBI_API ++ "/groups/" ++ workspace_id ++ "/datasets/" ++ dataset_id
      ++ "/executeQueries") "POST" (some (daxBody query)) tok
  match o.result.lookup "error" with
  | some e => (.ok ("Error: " ++ pyStr e), o.token, o.calls)
  | none =>
    let results := (o.result.getD "results" (J.arr [])).asList
    match results with
    | [] => (.ok "No data returned", o.token, o.calls)
    | r0 :: _ =>
      match r0.lookup "tables" with
      | some t => (.ok (J.dumps 0 t), o.token, o.calls)
      | none => (.ok "No data returned", o.token, o.calls)

/-- The 40-dash separator line of the per-file banner.  railway_app.py
uses the ASCII dash; powerbi_server.py and function_app.py use the
Unicode box-drawing dash, with the loop otherwise identical. -/
def gmdSep : String := String.mk (List.replicate 40 '-')

/-- The fixed header of the model-definition output. -/
def gmdHeader : String :=
  "Dataset Model Definition (TMDL Format)\n" ++ String.mk (List.replicate 40 '=') ++ "\n\n"

/-- The part-rendering loop of get_model_definition (railway_app.py lines
208-223), accumulating into output: parts whose path field does not end
in .tmdl are skipped; for the rest the payload is decoded (the decode
argument stands for base64.b64decode(payload).decode, whose failure is
the caught per-part exception) and appended under the banner, a decode
failure appending only the inline error note. -/
def Railway.renderParts (decode : String → Except String String) :
    List J → String → String
  | [], output => output
  | part :: rest, output =>
    let path := (part.getD "path" (J.str "")).asStr
    let payload := (part.getD "payload" (J.str "")).asStr
    if ¬ strEndsWith path ".tmdl" then Railway.renderParts decode rest output
    else
      match decode payload with
      | .ok content =>
          Railway.renderParts decode rest
            (output ++ "\n" ++ gmdSep ++ "\n" ++ "File: " ++ path ++ "\n"
              ++ gmdSep ++ "\n" ++ content ++ "\n")
      | .error e =>
          Railway.renderParts decode rest
            (output ++ "\nError decoding " ++ path ++ ": " ++ e ++ "\n")

/-- What one part contributes to the output, following the words of the
specification: nothing for a part whose path does not end in .tmdl, the
banner (containing the path) plus decoded content for one that decodes,
and the inline error note for one that fails to decode.  Compared against
the accumulating source loop in the C8 theorem. -/
def renderPartSpec (decode : String → Except String String) (part : J) : String :=
  let path := (part.getD "path" (J.str "")).asStr
  if strEndsWith path ".tmdl" then
    match decode ((part.getD "payload" (J.str "")).asStr) with
    | .ok content =>
        "\n" ++ gmdSep ++ "\n" ++ "File: " ++ path ++ "\n" ++ gmdSep ++ "\n"
          ++ content ++ "\n"
    | .error e => "\nError decoding " ++ path ++ ": " ++ e ++ "\n"
  else ""

/-- Environment of one get_model_definition call: the identity-endpoint
outcome for its initial ensure_token, the one consumed by the
ensure_token inside wait_for_operation, the status and parsed body of the
getDefinition POST, the polling environment reached through the Location
header on a 202 (the header value and the Retry-After sleep interval are
not modelled beyond selecting this environment), and the per-part decode
function. -/
structure GmdEnv where
  ensureResp : TokenResp
  pollEnsureResp : TokenResp
  postStatus : Nat
  postJson : J
  pollEnv : PollEnv
  decode : String → Except String String

/-- Rendering of the resolved model-definition dict (railway_app.py lines
199-225): an error dict renders as "Error: ...", an absent or empty
definition.parts list as the fixed string, otherwise the header plus the
part loop. -/
def Railway.gmdRender (decode : String → Except String String) (result : J) :
    Except String String :=
  match result.lookup "error" with
  | some e => .ok ("Error: " ++ pyStr e)
  | none =>
    let parts := ((result.getD "definition" (J.obj [])).getD "parts" (J.arr [])).asList
    if parts.isEmpty then .ok "No model definition found"
    else .ok (Railway.renderParts decode parts gmdHeader)

/-- get_model_definition (railway_app.py lines 182-225): ensure_token,
then the getDefinition POST (one network call); a 202 hands off to
wait_for_operation, any other ok status resolves to the POST body, any
other status returns "Error: HTTP {status}"; the resolved dict is then
rendered by gmdRender. -/
def Railway.get_model_definition (env : GmdEnv) (c : Creds)
    (_workspace_id _dataset_id tok : String) :
    Except String String × String × Nat :=
  match Railway.ensure_token c env.ensureResp tok with
  | (false, tok1, n1) => (.ok "Error: Failed to obtain access token", tok1, n1)
  | (true, tok1, n1) =>
    if env.postStatus = 202 then
      let (result, tok2, k) :=
        Railway.wait_for_operation env.pollEnv env.pollEnsureResp c tok1
      (Railway.gmdRender env.decode result, tok2, n1 + 1 + k)
    else if env.postStatus < 400 then
      (Railway.gmdRender env.decode env.postJson, tok1, n1 + 1)
    else (.ok ("Error: HTTP " ++ toString env.postStatus), tok1, n1 + 1)

/-- The two response shapes of the dispatcher: `content text` stands for
the success envelope {"content": [{"type": "text", "text": text}]} and
`error msg` for the failure value {"error": msg}. -/
inductive Envelope where
  | content (text : String)
  | error (msg : String)

/-- arguments.get(key) on the argument mapping of a tool invocation. -/
def getArg : List (String × String) → String → Option String
  | [], _ => none
  | (k, v) :: rest, key => if k = key then some v else getArg rest key

/-- Python truthiness of an optional argument string: present and
non-empty. -/
def truthy : Option String → Bool
  | none => false
  | some s => if s = "" then false else true

/-- How the dispatcher wraps one tool execution: a returned text becomes
the content envelope; an exception escaping the tool is caught by the
surrounding try and becomes {"error": f"Error calling tool {name}: ..."}. -/
def wrapTool (name : String) :
    Except String String × String × Nat → Envelope × String × Nat
  | (.ok text, tok, n) => (.content text, tok, n)
  | (.error e, tok, n) => (.error ("Error calling tool " ++ name ++ ": " ++ e), tok, n)

/-- Environment of one dispatcher call, bundling what the selected tool
may consume. -/
structure ToolEnv where
  mkEnv : MkEnv
  gmd : GmdEnv
  connResp : TokenResp

/-- call_powerbi_tool (railway_app.py lines 311-354; function_app.py
lines 294-340 is the identical async copy): selects one of the five fixed
tools by name, validates the required arguments of the selected tool
before any network call — a missing or empty one returns {"error": ...}
naming the required arguments — and wraps the execution result.  Returns
the envelope, the final TOKEN and the network call count. -/
def Railway.call_powerbi_tool (env : ToolEnv) (c : Creds) (tool : String)
    (args : List (String × String)) (tok : String) : Envelope × String × Nat :=
  if tool = "list_workspaces" then
    wrapTool tool (Railway.list_workspaces env.mkEnv c tok)
  else if tool = "list_datasets" then
    let ws := getArg args "workspace_id"
    if ¬ truthy ws then
      (.error "workspace_id is required for list_datasets", tok, 0)
    else wrapTool tool (Railway.list_datasets env.mkEnv c (ws.getD "") tok)
  else if tool = "get_model_definition" then
    let ws := getArg args "workspace_id"
    let ds := getArg args "dataset_id"
    if ¬ truthy ws ∨ ¬ truthy ds then
      (.error "workspace_id and dataset_id are required for get_model_definition", tok, 0)
    else wrapTool tool (Railway.get_model_definition env.gmd c (ws.getD "") (ds.getD "") tok)
  else if tool = "execute_dax_query" then
    let ws := getArg args "workspace_id"
    let ds := getArg args "dataset_id"
    let q := getArg args "query"
    if ¬ truthy ws ∨ ¬ truthy ds ∨ ¬ truthy q then
      (.error "workspace_id, dataset_id, and query are required for execute_dax_query", tok, 0)
    else
      wrapTool tool
        (Railway.execute_dax_query env.mkEnv c (ws.getD "") (ds.getD "") (q.getD "") tok)
  else if tool = "test_connection" then
    let (text, tok1, n) := Railway.test_connection c env.connResp tok
    (.content text, tok1, n)
  else (.error ("Unknown tool: " ++ tool), tok, 0)

/-- Concatenation of a list of strings, for stating what the
part-rendering loop produces. -/
def concatAll : List String → String
  | [] => ""
  | s :: rest => s ++ concatAll rest

/-- A fully populated credential set. -/
def credsFull : Creds := ⟨"cid", "csec", "tid"⟩

/-- The credential set of a process started with none of the three
environment variables (os.environ.get defaults each to ""). -/
def credsEmpty : Creds := ⟨"", "", ""⟩

/-- A request outcome never consumed on the path under study. -/
def reqUnused : ReqOutcome := .exn "unused"

/-- An identity-endpoint outcome never consumed on the path under study. -/
def tokUnused : TokenResp := .exn "unused"

/-- A status URL whose every poll answers HTTP 200 with body status
"Running": an infinite sequence of non-terminal poll responses. -/
def pollEnvRunning : PollEnv := ⟨fun _ => ⟨200, "Running", none⟩, none⟩

/-- Executor environment where the first response is a 401 and the forced
token exchange is refused by the identity endpoint. -/
def mkEnv401Refused : MkEnv :=
  ⟨tokUnused, .resp 401 "unauthorized" J.null, .httpErr 500 "idp down", reqUnused⟩

/-- Executor environment where the first response is a 401, the forced
exchange yields the fresh token t1, and the re-issued request fails with
a 500. -/
def mkEnv401Retry : MkEnv :=
  ⟨tokUnused, .resp 401 "unauthorized" J.null, .ok ⟨some "t1"⟩, .resp 500 "server down" J.null⟩

/-- Executor environment whose identity endpoint refuses the exchange. -/
def mkEnvNoAuth : MkEnv := ⟨.httpErr 400 "bad credentials", reqUnused, tokUnused, reqUnused⟩

/-- Model-definition environment resolving directly (HTTP 200) to a body
with no parts. -/
def gmdEnvTrivial : GmdEnv :=
  ⟨tokUnused, tokUnused, 200, J.obj [], pollEnvRunning, fun _ => .ok ""⟩

/-- Dispatcher environment where any attempted token exchange fails. -/
def toolEnvNoAuth : ToolEnv := ⟨mkEnvNoAuth, gmdEnvTrivial, .httpErr 400 "bad credentials"⟩

/-- Executor environment answering every tool request with HTTP 200 and a
body whose value and results collections are empty. -/
def mkEnvCalm : MkEnv :=
  ⟨tokUnused, .resp 200 "" (J.obj [("value", J.arr []), ("results", J.arr [])]), tokUnused, reqUnused⟩

/-- Dispatcher environment in which every tool call succeeds with an
empty collection and the identity endpoint would issue the token
"newtok". -/
def toolEnvCalm : ToolEnv := ⟨mkEnvCalm, gmdEnvTrivial, .ok ⟨some "newtok"⟩⟩

/-- A model-definition part with the given path and payload fields. -/
def tmdlPart (path payload : String) : J :=
  J.obj [("path", J.str path), ("payload", J.str payload)]

/-- Three parts: a decodable .tmdl part, a .json part, and a .tmdl part
whose payload fails to decode. -/
def partsW : List J :=
  [tmdlPart "model.tmdl" "AAA", tmdlPart "meta.json" "BBB", tmdlPart "bad.tmdl" "ZZZ"]

/-- A decode oracle that fails exactly on the payload "ZZZ". -/
def decodeW : String → Except String String :=
  fun s => if s = "ZZZ" then .error "Invalid base64" else .ok ("decoded " ++ s)

/-- Model-definition environment resolving directly (HTTP 200) to a body
carrying partsW. -/
def gmdEnvParts : GmdEnv :=
  ⟨tokUnused, tokUnused, 200,
    J.obj [("definition", J.obj [("parts", J.arr partsW)])], pollEnvRunning, decodeW⟩

/-- The tables value of the query-response fixture. -/
def daxTablesW : J := J.arr [J.obj [("rows", J.arr [J.num 1, J.num 2])]]

/-- A successful query-response body whose first result carries tables. -/
def daxBodyJ : J := J.obj [("results", J.arr [J.obj [("tables", daxTablesW)]])]

/-- Executor environment answering the query POST with daxBodyJ. -/
def mkEnvDax : MkEnv := ⟨tokUnused, .resp 200 "" daxBodyJ, tokUnused, reqUnused⟩

/-- Executor environment answering HTTP 200 with a workspace collection
whose single entry lacks the name field, so the formatting loop raises
KeyError. -/
def mkEnvBadWs : MkEnv :=
  ⟨tokUnused, .resp 200 "" (J.obj [("value", J.arr [J.obj []])]), tokUnused, reqUnused⟩

/-- Dispatcher environment built on mkEnvBadWs. -/
def toolEnvBadWs : ToolEnv := ⟨mkEnvBadWs, gmdEnvTrivial, tokUnused⟩

/-- C2: against the status URL pollEnvRunning, whose every poll answers a
non-terminal status, the powerbi_server.py / function_app.py
wait_for_operation loop never returns within any number of iterations
(the code is an unbounded `while True`), while the railway_app.py variant
returns the distinct "Operation timed out" error dict after exactly its
fixed maximum of 5 polls.  The first conjunct exhibits the defect: the
claim (and the specification, which calls the unbounded variant a defect)
requires bounded termination of every variant. -/
theorem claim_C2_theorem :
    (∀ fuel i, Powerbi.waitLoopF pollEnvRunning i fuel = none) ∧
    Railway.wait_for_operation pollEnvRunning tokUnused credsFull "t" =
      (errDict "Operation timed out", "t", 5) := by
  constructor
  · intro fuel
    induction fuel with
    | zero => intro i; rfl
    | succ n ih => intro i; exact ih (i + 1)
  · rfl

/-- C3: with a non-empty cached token, ensure_token (both variants)
succeeds immediately, leaves the token unchanged and performs no network
call; with no cached token it delegates to get_access_token and returns
its result. -/
theorem claim_C3_theorem (c : Creds) (resp : TokenResp) (tok : String) :
    (tok ≠ "" →
      Powerbi.ensure_token c resp tok = (true, tok, 0) ∧
      Railway.ensure_token c resp tok = (true, tok, 0)) ∧
    (tok = "" →
      Powerbi.ensure_token c resp tok = Powerbi.get_access_token c resp tok ∧
      Railway.ensure_token c resp tok = Railway.get_access_token c resp tok) := by
  constructor
  · intro h
    exact ⟨by simp [Powerbi.ensure_token, h], by simp [Railway.ensure_token, h]⟩
  · intro h
    subst h
    exact ⟨by simp [Powerbi.ensure_token], by simp [Railway.ensure_token]⟩

/-- Witness for C3 at concrete inputs: a cached token "t" is returned as
is with zero network calls, and an empty cache delegates to
get_access_token. -/
theorem claim_C3_witness :
    (("t" : String) ≠ "" ∧
      Powerbi.ensure_token credsFull tokUnused "t" = (true, "t", 0) ∧
      Railway.ensure_token credsFull tokUnused "t" = (true, "t", 0)) ∧
    (("" : String) = "" ∧
      Powerbi.ensure_token credsFull tokUnused "" =
        Powerbi.get_access_token credsFull tokUnused "" ∧
      Railway.ensure_token credsFull tokUnused "" =
        Railway.get_access_token credsFull tokUnused "") :=
  ⟨⟨by decide, (claim_C3_theorem credsFull tokUnused "t").1 (by decide)⟩,
   ⟨rfl, (claim_C3_theorem credsFull tokUnused "").2 rfl⟩⟩

/-- C4 counterexample: in powerbi_server.py (and function_app.py),
get_access_token has no credential guard, so with every credential empty
and no cached token, ensure_token still posts to the identity endpoint
(one network call) — and, if that endpoint answers a token, even
succeeds.  The claim requires failure with no network call attempted. -/
theorem claim_C4_counterexample :
    credsEmpty.clientId = "" ∧
    Powerbi.ensure_token credsEmpty (TokenResp.ok ⟨some "tkn"⟩) "" = (true, "tkn", 1) :=
  ⟨rfl, rfl⟩

/-- C4 (amended): in the railway_app.py variant, a configuration missing
at least one required credential field makes ensure_token (with no
cached token) fail with no network call; the powerbi_server.py /
function_app.py variant lacks the guard and posts to the identity
endpoint regardless. -/
theorem claim_C4_amended_theorem (c : Creds) (resp : TokenResp)
    (h : c.clientId = "" ∨ c.clientSecret = "" ∨ c.tenantId = "") :
    Railway.ensure_token c resp "" = (false, "", 0) := by
  unfold Railway.ensure_token Railway.get_access_token
  rw [if_pos rfl, if_pos h]

/-- Witness for the amended C4 at a concrete credential set missing every
field. -/
theorem claim_C4_amended_witness :
    (credsEmpty.clientId = "" ∨ credsEmpty.clientSecret = "" ∨ credsEmpty.tenantId = "") ∧
    Railway.ensure_token credsEmpty (TokenResp.ok ⟨some "tkn"⟩) "" = (false, "", 0) :=
  ⟨Or.inl rfl, claim_C4_amended_theorem credsEmpty (TokenResp.ok ⟨some "tkn"⟩) (Or.inl rfl)⟩

/-- C6: whenever the token-exchange outcome is anything but a success
response carrying an access token — an exception, a non-success HTTP
status, or a body with no readable token — get_access_token (both
variants) reports failure and leaves the cached token unchanged; the
cached token is replaced exactly on a successful exchange (for the
railway variant, under its credential guard). -/
theorem claim_C6_theorem (c : Creds) (resp : TokenResp) (tok : String) :
    (tokenOf resp = none →
      (Powerbi.get_access_token c resp tok).1 = false ∧
      (Powerbi.get_access_token c resp tok).2.1 = tok ∧
      (Railway.get_access_token c resp tok).1 = false ∧
      (Railway.get_access_token c resp tok).2.1 = tok) ∧
    (∀ t, tokenOf resp = some t →
      Powerbi.get_access_token c resp tok = (true, t, 1) ∧
      (c.clientId ≠ "" → c.clientSecret ≠ "" → c.tenantId ≠ "" →
        Railway.get_access_token c resp tok = (true, t, 1))) := by
  constructor
  · intro h
    have hp : (Powerbi.get_access_token c resp tok).1 = false ∧
        (Powerbi.get_access_token c resp tok).2.1 = tok := by
      cases resp with
      | exn m => exact ⟨rfl, rfl⟩
      | httpErr st tx => exact ⟨rfl, rfl⟩
      | ok body =>
          simp only [tokenOf] at h
          simp [Powerbi.get_access_token, h]
    have hr : (Railway.get_access_token c resp tok).1 = false ∧
        (Railway.get_access_token c resp tok).2.1 = tok := by
      unfold Railway.get_access_token
      split
      · exact ⟨rfl, rfl⟩
      · cases resp with
        | exn m => exact ⟨rfl, rfl⟩
        | httpErr st tx => exact ⟨rfl, rfl⟩
        | ok body =>
            simp only [tokenOf] at h
            simp [h]
    exact ⟨hp.1, hp.2, hr.1, hr.2⟩
  · intro t h
    cases resp with
    | exn m => simp [tokenOf] at h
    | httpErr st tx => simp [tokenOf] at h
    | ok body =>
        simp only [tokenOf] at h
        constructor
        · simp [Powerbi.get_access_token, h]
        · intro h1 h2 h3
          simp [Railway.get_access_token, h, h1, h2, h3]

/-- Witness for C6 at concrete inputs: a 400 from the identity endpoint
leaves the cached token "old" in place in both variants, and a success
response carrying "fresh" replaces it. -/
theorem claim_C6_witness :
    (tokenOf (TokenResp.httpErr 400 "bad") = none ∧
      (Powerbi.get_access_token credsFull (TokenResp.httpErr 400 "bad") "old").1 = false ∧
      (Powerbi.get_access_token credsFull (TokenResp.httpErr 400 "bad") "old").2.1 = "old" ∧
      (Railway.get_access_token credsFull (TokenResp.httpErr 400 "bad") "old").1 = false ∧
      (Railway.get_access_token credsFull (TokenResp.httpErr 400 "bad") "old").2.1 = "old") ∧
    (tokenOf (TokenResp.ok ⟨some "fresh"⟩) = some "fresh" ∧
      Powerbi.get_access_token credsFull (TokenResp.ok ⟨some "fresh"⟩) "old" = (true, "fresh", 1) ∧
      Railway.get_access_token credsFull (TokenResp.ok ⟨some "fresh"⟩) "old" = (true, "fresh", 1)) :=
  ⟨⟨rfl, (claim_C6_theorem credsFull (TokenResp.httpErr 400 "bad") "old").1 rfl⟩,
   ⟨rfl,
    ((claim_C6_theorem credsFull (TokenResp.ok ⟨some "fresh"⟩) "old").2 "fresh" rfl).1,
    ((claim_C6_theorem credsFull (TokenResp.ok ⟨some "fresh"⟩) "old").2 "fresh" rfl).2
      (by decide) (by decide) (by decide)⟩⟩

/-- Behavior of the shared make_request body when the first response is a
401 (given that the initial ensure_token step succeeded): exactly one
forced get_access_token call; never more than two issues of the request;
if the forced exchange succeeds, exactly one re-issue with the same URL,
method and body under the new bearer, and a non-success retried response
makes the error value carry the retried status and truncated body; if the
forced exchange fails, no re-issue happens and the error carries the
original 401. -/
theorem make_request_core_after_401
    (ensure gat : TokenResp → String → Bool × String × Nat)
    (env : MkEnv) (url method : String) (data : Option J) (tok : String)
    (tx1 : String) (js1 : J)
    (hens : (ensure env.ensureResp tok).1 = true)
    (h1 : env.attempt1 = ReqOutcome.resp 401 tx1 js1) :
    (make_request_core ensure gat env url method data tok).forcedExch = 1 ∧
    (make_request_core ensure gat env url method data tok).requests.length ≤ 2 ∧
    ((gat env.forcedResp (ensure env.ensureResp tok).2.1).1 = true →
      (make_request_core ensure gat env url method data tok).requests =
        [⟨url, method, data, (ensure env.ensureResp tok).2.1⟩,
         ⟨url, method, data, (gat env.forcedResp (ensure env.ensureResp tok).2.1).2.1⟩] ∧
      (∀ st2 tx2 js2, env.attempt2 = ReqOutcome.resp st2 tx2 js2 → ¬ st2 < 400 →
        (make_request_core ensure gat env url method data tok).result =
          errDict ("HTTP " ++ toString st2 ++ ": " ++ tx2.take 200))) ∧
    ((gat env.forcedResp (ensure env.ensureResp tok).2.1).1 = false →
      (make_request_core ensure gat env url method data tok).requests =
        [⟨url, method, data, (ensure env.ensureResp tok).2.1⟩] ∧
      (make_request_core ensure gat env url method data tok).result =
        errDict ("HTTP " ++ toString (401 : Nat) ++ ": " ++ tx1.take 200)) := by
  rcases he : ensure env.ensureResp tok with ⟨b, tok1, n1⟩
  have hb : b = true := by rw [he] at hens; exact hens
  subst hb
  rcases hg : gat env.forcedResp tok1 with ⟨gb, tok2, nf⟩
  cases gb with
  | true =>
    cases ha : env.attempt2 with
    | exn m =>
        simp [make_request_core, he, h1, hg, ha, errDict]
    | resp st2 tx2 js2 =>
        by_cases hst2 : st2 < 400
        · simp [make_request_core, he, h1, hg, ha, hst2]
        · simp [make_request_core, he, h1, hg, ha, hst2]
  | false =>
    simp [make_request_core, he, h1, hg]

/-- C1 counterexample: in the executor environment mkEnv401Refused the
first response is a 401 and the forced token exchange fails, and then the
request is NOT re-issued — the request log holds exactly the original
issue, refuting the claim that a first 401 always leads to exactly one
re-issue of the request (the error returned then carries the original
401, not a retried response). -/
theorem claim_C1_counterexample :
    mkEnv401Refused.attempt1 = ReqOutcome.resp 401 "unauthorized" J.null ∧
    (Railway.make_request mkEnv401Refused credsFull "https://u" "GET" none "t0").requests =
      [⟨"https://u", "GET", none, "t0"⟩] ∧
    (Railway.make_request mkEnv401Refused credsFull "https://u" "GET" none "t0").requests.length ≠ 2 := by
  refine ⟨rfl, rfl, ?_⟩
  have hlen :
      (Railway.make_request mkEnv401Refused credsFull "https://u" "GET" none "t0").requests.length
        = 1 := rfl
  rw [hlen]
  decide

/-- C1 (amended): when the first response of a make_request call (either
variant) has status 401, the executor performs exactly one forced
get_access_token call and never issues the request more than twice; IF
the forced exchange succeeds, it re-issues the same URL, method and body
exactly once with the new bearer token, and a non-success retried
response makes the returned error carry the retried response status and
(truncated) body rather than the original 401; if the forced exchange
fails, no re-issue happens and the error carries the original 401. -/
theorem claim_C1_amended_theorem (c : Creds) (env : MkEnv) (url method : String)
    (data : Option J) (tok tx1 : String) (js1 : J)
    (h1 : env.attempt1 = ReqOutcome.resp 401 tx1 js1) :
    ((Railway.ensure_token c env.ensureResp tok).1 = true →
      (Railway.make_request env c url method data tok).forcedExch = 1 ∧
      (Railway.make_request env c url method data tok).requests.length ≤ 2 ∧
      ((Railway.get_access_token c env.forcedResp (Railway.ensure_token c env.ensureResp tok).2.1).1 = true →
        (Railway.make_request env c url method data tok).requests =
          [⟨url, method, data, (Railway.ensure_token c env.ensureResp tok).2.1⟩,
           ⟨url, method, data,
             (Railway.get_access_token c env.forcedResp (Railway.ensure_token c env.ensureResp tok).2.1).2.1⟩] ∧
        (∀ st2 tx2 js2, env.attempt2 = ReqOutcome.resp st2 tx2 js2 → ¬ st2 < 400 →
          (Railway.make_request env c url method data tok).result =
            errDict ("HTTP " ++ toString st2 ++ ": " ++ tx2.take 200))) ∧
      ((Railway.get_access_token c env.forcedResp (Railway.ensure_token c env.ensureResp tok).2.1).1 = false →
        (Railway.make_request env c url method data tok).requests =
          [⟨url, method, data, (Railway.ensure_token c env.ensureResp tok).2.1⟩] ∧
        (Railway.make_request env c url method data tok).result =
          errDict ("HTTP " ++ toString (401 : Nat) ++ ": " ++ tx1.take 200))) ∧
    ((Powerbi.ensure_token c env.ensureResp tok).1 = true →
      (Powerbi.make_request env c url method data tok).forcedExch = 1 ∧
      (Powerbi.make_request env c url method data tok).requests.length ≤ 2 ∧
      ((Powerbi.get_access_token c env.forcedResp (Powerbi.ensure_token c env.ensureResp tok).2.1).1 = true →
        (Powerbi.make_request env c url method data tok).requests =
          [⟨url, method, data, (Powerbi.ensure_token c env.ensureResp tok).2.1⟩,
           ⟨url, method, data,
             (Powerbi.get_access_token c env.forcedResp (Powerbi.ensure_token c env.ensureResp tok).2.1).2.1⟩] ∧
        (∀ st2 tx2 js2, env.attempt2 = ReqOutcome.resp st2 tx2 js2 → ¬ st2 < 400 →
          (Powerbi.make_request env c url method data tok).result =
            errDict ("HTTP " ++ toString st2 ++ ": " ++ tx2.take 200))) ∧
      ((Powerbi.get_access_token c env.forcedResp (Powerbi.ensure_token c env.ensureResp tok).2.1).1 = false →
        (Powerbi.make_request env c url method data tok).requests =
          [⟨url, method, data, (Powerbi.ensure_token c env.ensureResp tok).2.1⟩] ∧
        (Powerbi.make_request env c url method data tok).result =
          errDict ("HTTP " ++ toString (401 : Nat) ++ ": " ++ tx1.take 200))) :=
  ⟨fun hens => make_request_core_after_401
      (Railway.ensure_token c) (Railway.get_access_token c) env url method data tok tx1 js1 hens h1,
   fun hens => make_request_core_after_401
      (Powerbi.ensure_token c) (Powerbi.get_access_token c) env url method data tok tx1 js1 hens h1⟩

/-- Witness for the amended C1: in mkEnv401Retry the cached token "t0" is
in place, the first issue answers 401, the forced exchange yields "t1",
the re-issued request fails with a 500, and the executor issued the same
GET twice (first bearer "t0", then "t1"), performed one forced exchange,
and returned the error of the retried 500 response. -/
theorem claim_C1_amended_witness :
    mkEnv401Retry.attempt1 = ReqOutcome.resp 401 "unauthorized" J.null ∧
    (Railway.ensure_token credsFull mkEnv401Retry.ensureResp "t0").1 = true ∧
    (Railway.make_request mkEnv401Retry credsFull "https://u" "GET" none "t0").forcedExch = 1 ∧
    (Railway.make_request mkEnv401Retry credsFull "https://u" "GET" none "t0").requests =
      [⟨"https://u", "GET", none, "t0"⟩, ⟨"https://u", "GET", none, "t1"⟩] ∧
    (Railway.make_request mkEnv401Retry credsFull "https://u" "GET" none "t0").result =
      errDict ("HTTP " ++ toString (500 : Nat) ++ ": " ++ ("server down").take 200) :=
  ⟨rfl, rfl,
   ((claim_C1_amended_theorem credsFull mkEnv401Retry "https://u" "GET" none "t0"
      "unauthorized" J.null rfl).1 rfl).1,
   (((claim_C1_amended_theorem credsFull mkEnv401Retry "https://u" "GET" none "t0"
      "unauthorized" J.null rfl).1 rfl).2.2.1 rfl).1,
   (((claim_C1_amended_theorem credsFull mkEnv401Retry "https://u" "GET" none "t0"
      "unauthorized" J.null rfl).1 rfl).2.2.1 rfl).2 500 "server down" J.null rfl (by decide)⟩

/-- C7: a list_datasets invocation through the dispatcher whose argument
mapping lacks a non-empty workspace_id returns the structured error value
naming workspace_id with zero network calls, and the same
before-any-I/O validation holds for get_model_definition (workspace_id,
dataset_id) and execute_dax_query (workspace_id, dataset_id, query). -/
theorem claim_C7_theorem (env : ToolEnv) (c : Creds)
    (args : List (String × String)) (tok : String) :
    (truthy (getArg args "workspace_id") = false →
      Railway.call_powerbi_tool env c "list_datasets" args tok =
        (Envelope.error "workspace_id is required for list_datasets", tok, 0) ∧
      "workspace_id is required for list_datasets" =
        "workspace_id" ++ " is required for list_datasets") ∧
    (truthy (getArg args "workspace_id") = false ∨ truthy (getArg args "dataset_id") = false →
      Railway.call_powerbi_tool env c "get_model_definition" args tok =
        (Envelope.error "workspace_id and dataset_id are required for get_model_definition",
          tok, 0)) ∧
    (truthy (getArg args "workspace_id") = false ∨ truthy (getArg args "dataset_id") = false ∨
        truthy (getArg args "query") = false →
      Railway.call_powerbi_tool env c "execute_dax_query" args tok =
        (Envelope.error "workspace_id, dataset_id, and query are required for execute_dax_query",
          tok, 0)) := by
  refine ⟨fun h => ⟨?_, rfl⟩, fun h => ?_, fun h => ?_⟩
  · simp [Railway.call_powerbi_tool, h]
  · rcases h with h | h <;> simp [Railway.call_powerbi_tool, h]
  · rcases h with h | h | h <;> simp [Railway.call_powerbi_tool, h]

/-- Witness for C7: an empty argument mapping fails validation of all
three tools with the structured messages and zero network calls. -/
theorem claim_C7_witness :
    truthy (getArg [] "workspace_id") = false ∧
    Railway.call_powerbi_tool toolEnvCalm credsFull "list_datasets" [] "t" =
      (Envelope.error "workspace_id is required for list_datasets", "t", 0) ∧
    Railway.call_powerbi_tool toolEnvCalm credsFull "get_model_definition" [] "t" =
      (Envelope.error "workspace_id and dataset_id are required for get_model_definition",
        "t", 0) ∧
    Railway.call_powerbi_tool toolEnvCalm credsFull "execute_dax_query" [] "t" =
      (Envelope.error "workspace_id, dataset_id, and query are required for execute_dax_query",
        "t", 0) :=
  ⟨rfl,
   ((claim_C7_theorem toolEnvCalm credsFull [] "t").1 rfl).1,
   (claim_C7_theorem toolEnvCalm credsFull [] "t").2.1 (Or.inl rfl),
   (claim_C7_theorem toolEnvCalm credsFull [] "t").2.2 (Or.inl rfl)⟩

/-- C10: test_connection calls get_access_token directly — even when a
token is cached it performs the full exchange (one identity post,
bypassing the cached-token check) — and a successful exchange overwrites
the cached token with the newly obtained value; the closed conjuncts
exhibit, in one dispatcher environment with the token "cached" in place,
that each of the other four tools can succeed leaving the token
untouched, while test_connection succeeds and replaces it. -/
theorem claim_C10_theorem (c : Creds) (resp : TokenResp) (tok : String) :
    (Powerbi.test_connection c resp tok).2.2 = 1 ∧
    (∀ t, tokenOf resp = some t →
      Powerbi.test_connection c resp tok =
        ("Authentication successful! Token obtained and ready to use.", t, 1)) ∧
    (c.clientId ≠ "" → c.clientSecret ≠ "" → c.tenantId ≠ "" →
      (Railway.test_connection c resp tok).2.2 = 1 ∧
      ∀ t, tokenOf resp = some t →
        Railway.test_connection c resp tok =
          ("Authentication successful! Token obtained and ready to use.", t, 1)) ∧
    Railway.call_powerbi_tool toolEnvCalm credsFull "test_connection" [] "cached" =
      (Envelope.content "Authentication successful! Token obtained and ready to use.",
        "newtok", 1) ∧
    Railway.call_powerbi_tool toolEnvCalm credsFull "list_workspaces" [] "cached" =
      (Envelope.content "No workspaces found", "cached", 1) ∧
    Railway.call_powerbi_tool toolEnvCalm credsFull "list_datasets"
        [("workspace_id", "w")] "cached" =
      (Envelope.content "No datasets found in this workspace", "cached", 1) ∧
    Railway.call_powerbi_tool toolEnvCalm credsFull "get_model_definition"
        [("workspace_id", "w"), ("dataset_id", "d")] "cached" =
      (Envelope.content "No model definition found", "cached", 1) ∧
    Railway.call_powerbi_tool toolEnvCalm credsFull "execute_dax_query"
        [("workspace_id", "w"), ("dataset_id", "d"), ("query", "EVALUATE T")] "cached" =
      (Envelope.content "No data returned", "cached", 1) := by
  refine ⟨?_, ?_, ?_, rfl, rfl, rfl, rfl, rfl⟩
  · cases resp with
    | exn m => rfl
    | httpErr st tx => rfl
    | ok body => obtain ⟨a⟩ := body; cases a <;> rfl
  · intro t h
    cases resp with
    | exn m => simp [tokenOf] at h
    | httpErr st tx => simp [tokenOf] at h
    | ok body =>
        obtain ⟨a⟩ := body
        simp only [tokenOf] at h
        subst h
        rfl
  · intro h1 h2 h3
    have hguard : ¬ (c.clientId = "" ∨ c.clientSecret = "" ∨ c.tenantId = "") := by
      simp [h1, h2, h3]
    constructor
    · unfold Railway.test_connection Railway.get_access_token
      rw [if_neg hguard]
      cases resp with
      | exn m => rfl
      | httpErr st tx => rfl
      | ok body => obtain ⟨a⟩ := body; cases a <;> rfl
    · intro t h
      cases resp with
      | exn m => simp [tokenOf] at h
      | httpErr st tx => simp [tokenOf] at h
      | ok body =>
          obtain ⟨a⟩ := body
          simp only [tokenOf] at h
          subst h
          unfold Railway.test_connection Railway.get_access_token
          rw [if_neg hguard]

/-- Witness for C10: with the token "cached" in place and a successful
exchange answering "fresh2", test_connection in both variants performs
the exchange and overwrites the cache with "fresh2". -/
theorem claim_C10_witness :
    tokenOf (TokenResp.ok ⟨some "fresh2"⟩) = some "fresh2" ∧
    (Powerbi.test_connection credsFull (TokenResp.ok ⟨some "fresh2"⟩) "cached").2.2 = 1 ∧
    Powerbi.test_connection credsFull (TokenResp.ok ⟨some "fresh2"⟩) "cached" =
      ("Authentication successful! Token obtained and ready to use.", "fresh2", 1) ∧
    Railway.test_connection credsFull (TokenResp.ok ⟨some "fresh2"⟩) "cached" =
      ("Authentication successful! Token obtained and ready to use.", "fresh2", 1) :=
  ⟨rfl,
   (claim_C10_theorem credsFull (TokenResp.ok ⟨some "fresh2"⟩) "cached").1,
   (claim_C10_theorem credsFull (TokenResp.ok ⟨some "fresh2"⟩) "cached").2.1 "fresh2" rfl,
   ((claim_C10_theorem credsFull (TokenResp.ok ⟨some "fresh2"⟩) "cached").2.2.1
      (by decide) (by decide) (by decide)).2 "fresh2" rfl⟩

/-- C5 counterexample: with the identity endpoint refusing the exchange,
a list_workspaces invocation through the dispatcher — an authorization
failure — is returned INSIDE the success envelope, as the content text
"Error: Failed to obtain access token", not as the {"error": ...} value
the claim requires for every failure. -/
theorem claim_C5_counterexample :
    Railway.call_powerbi_tool toolEnvNoAuth credsEmpty "list_workspaces" [] "" =
      (Envelope.content "Error: Failed to obtain access token", "", 0) := rfl

/-- C5 (amended): every dispatcher result is exactly one of the two
shapes (content envelope or error value); an unknown tool name,
missing-argument validation (see C7) and an exception escaping a tool
body are returned as the error value; a tool body that returns text is
wrapped in the success envelope — including the case where that text
reports a network or authorization failure ("Error: ..." rendered from a
make_request error dict), which therefore lands inside the success
envelope rather than in the error value. -/
theorem claim_C5_amended_theorem (env : ToolEnv) (c : Creds) (tool : String)
    (args : List (String × String)) (tok : String) :
    ((∃ t, (Railway.call_powerbi_tool env c tool args tok).1 = Envelope.content t) ∨
      (∃ m, (Railway.call_powerbi_tool env c tool args tok).1 = Envelope.error m)) ∧
    (tool ≠ "list_workspaces" → tool ≠ "list_datasets" → tool ≠ "get_model_definition" →
      tool ≠ "execute_dax_query" → tool ≠ "test_connection" →
      Railway.call_powerbi_tool env c tool args tok =
        (Envelope.error ("Unknown tool: " ++ tool), tok, 0)) ∧
    (∀ text tok1 n, Railway.list_workspaces env.mkEnv c tok = (Except.ok text, tok1, n) →
      Railway.call_powerbi_tool env c "list_workspaces" args tok =
        (Envelope.content text, tok1, n)) ∧
    (∀ e tok1 n, Railway.list_workspaces env.mkEnv c tok = (Except.error e, tok1, n) →
      Railway.call_powerbi_tool env c "list_workspaces" args tok =
        (Envelope.error ("Error calling tool list_workspaces: " ++ e), tok1, n)) ∧
    (∀ e, (Railway.make_request env.mkEnv c (POWERBI_API ++ "/groups") "GET" none tok).result.lookup "error"
        = some e →
      (Railway.call_powerbi_tool env c "list_workspaces" args tok).1 =
        Envelope.content ("Error: " ++ pyStr e)) := by
  refine ⟨?_, ?_, ?_, ?_, ?_⟩
  · cases hE : (Railway.call_powerbi_tool env c tool args tok).1 with
    | content t => exact Or.inl ⟨t, rfl⟩
    | error m => exact Or.inr ⟨m, rfl⟩
  · intro h1 h2 h3 h4 h5
    simp [Railway.call_powerbi_tool, h1, h2, h3, h4, h5]
  · intro text tok1 n h
    simp [Railway.call_powerbi_tool, wrapTool, h]
  · intro e tok1 n h
    simp [Railway.call_powerbi_tool, wrapTool, h]
  · intro e h
    have hlw : Railway.list_workspaces env.mkEnv c tok =
        (Except.ok ("Error: " ++ pyStr e),
          (Railway.make_request env.mkEnv c (POWERBI_API ++ "/groups") "GET" none tok).token,
          (Railway.make_request env.mkEnv c (POWERBI_API ++ "/groups") "GET" none tok).calls) := by
      simp only [Railway.list_workspaces]
      rw [h]
    simp [Railway.call_powerbi_tool, wrapTool, hlw]

/-- Witness for the amended C5: the unknown-tool, success, exception and
content-wrapped-failure paths at concrete inputs. -/
theorem claim_C5_amended_witness :
    Railway.call_powerbi_tool toolEnvCalm credsFull "frobnicate" [] "t" =
      (Envelope.error ("Unknown tool: " ++ "frobnicate"), "t", 0) ∧
    (Railway.list_workspaces toolEnvCalm.mkEnv credsFull "t" =
      (Except.ok "No workspaces found", "t", 1) ∧
     Railway.call_powerbi_tool toolEnvCalm credsFull "list_workspaces" [] "t" =
      (Envelope.content "No workspaces found", "t", 1)) ∧
    (Railway.list_workspaces toolEnvBadWs.mkEnv credsFull "t" =
      (Except.error (keyErrorMsg "name"), "t", 1) ∧
     Railway.call_powerbi_tool toolEnvBadWs credsFull "list_workspaces" [] "t" =
      (Envelope.error ("Error calling tool list_workspaces: " ++ keyErrorMsg "name"), "t", 1)) ∧
    ((Railway.make_request toolEnvNoAuth.mkEnv credsEmpty (POWERBI_API ++ "/groups") "GET" none "").result.lookup "error"
        = some (J.str "Failed to obtain access token") ∧
     (Railway.call_powerbi_tool toolEnvNoAuth credsEmpty "list_workspaces" [] "").1 =
      Envelope.content ("Error: " ++ pyStr (J.str "Failed to obtain access token"))) :=
  ⟨(claim_C5_amended_theorem toolEnvCalm credsFull "frobnicate" [] "t").2.1
      (by decide) (by decide) (by decide) (by decide) (by decide),
   ⟨rfl, (claim_C5_amended_theorem toolEnvCalm credsFull "list_workspaces" [] "t").2.2.1
      "No workspaces found" "t" 1 rfl⟩,
   ⟨rfl, (claim_C5_amended_theorem toolEnvBadWs credsFull "list_workspaces" [] "t").2.2.2.1
      (keyErrorMsg "name") "t" 1 rfl⟩,
   ⟨rfl, (claim_C5_amended_theorem toolEnvNoAuth credsEmpty "list_workspaces" [] "").2.2.2.2
      (J.str "Failed to obtain access token") rfl⟩⟩

/-- The accumulating part loop equals the accumulator followed by the
concatenation of the per-part contributions. -/
theorem renderParts_eq_concat (decode : String → Except String String)
    (parts : List J) (acc : String) :
    Railway.renderParts decode parts acc =
      acc ++ concatAll (parts.map (renderPartSpec decode)) := by
  induction parts generalizing acc with
  | nil => simp [Railway.renderParts, concatAll]
  | cons p ps ih =>
      cases h : strEndsWith (p.getD "path" (J.str "")).asStr ".tmdl" with
      | false =>
          simp only [Railway.renderParts, List.map, concatAll, renderPartSpec, h]
          simp [ih]
      | true =>
          cases hd : decode ((p.getD "payload" (J.str "")).asStr) with
          | ok content =>
              simp only [Railway.renderParts, List.map, concatAll, renderPartSpec, h, hd]
              simp [ih, String.append_assoc]
          | error e =>
              simp only [Railway.renderParts, List.map, concatAll, renderPartSpec, h, hd]
              simp [ih, String.append_assoc]

/-- C8: whichever way the model-definition result is resolved (a direct
ok response, or a 202 handed to the poller), the output of
get_model_definition is the fixed header followed by one contribution per
part in order, where a part whose path does not end in .tmdl contributes
nothing, a .tmdl part whose payload decodes contributes its decoded text
under the banner containing its path, and a .tmdl part whose payload
fails to decode contributes only the inline error note naming its path —
the remaining parts still being processed. -/
theorem claim_C8_theorem (env : GmdEnv) (c : Creds) (ws ds tok : String)
    (parts : List J)
    (hens : (Railway.ensure_token c env.ensureResp tok).1 = true)
    (hne : parts ≠ []) :
    (env.postStatus ≠ 202 → env.postStatus < 400 →
      env.postJson.lookup "error" = none →
      ((env.postJson.getD "definition" (J.obj [])).getD "parts" (J.arr [])).asList = parts →
      (Railway.get_model_definition env c ws ds tok).1 =
        Except.ok (gmdHeader ++ concatAll (parts.map (renderPartSpec env.decode)))) ∧
    (∀ body tok2 k, env.postStatus = 202 →
      Railway.wait_for_operation env.pollEnv env.pollEnsureResp c
          ((Railway.ensure_token c env.ensureResp tok).2.1) = (body, tok2, k) →
      body.lookup "error" = none →
      ((body.getD "definition" (J.obj [])).getD "parts" (J.arr [])).asList = parts →
      (Railway.get_model_definition env c ws ds tok).1 =
        Except.ok (gmdHeader ++ concatAll (parts.map (renderPartSpec env.decode)))) ∧
    (∀ p, strEndsWith (p.getD "path" (J.str "")).asStr ".tmdl" = false →
      renderPartSpec env.decode p = "") ∧
    (∀ p content, strEndsWith (p.getD "path" (J.str "")).asStr ".tmdl" = true →
      env.decode ((p.getD "payload" (J.str "")).asStr) = Except.ok content →
      renderPartSpec env.decode p =
        "\n" ++ gmdSep ++ "\n" ++ "File: " ++ (p.getD "path" (J.str "")).asStr ++ "\n"
          ++ gmdSep ++ "\n" ++ content ++ "\n") ∧
    (∀ p e, strEndsWith (p.getD "path" (J.str "")).asStr ".tmdl" = true →
      env.decode ((p.getD "payload" (J.str "")).asStr) = Except.error e →
      renderPartSpec env.decode p =
        "\nError decoding " ++ (p.getD "path" (J.str "")).asStr ++ ": " ++ e ++ "\n") := by
  have hrender : ∀ body : J, body.lookup "error" = none →
      ((body.getD "definition" (J.obj [])).getD "parts" (J.arr [])).asList = parts →
      Railway.gmdRender env.decode body =
        Except.ok (gmdHeader ++ concatAll (parts.map (renderPartSpec env.decode))) := by
    intro body herr hparts
    have hempty : parts.isEmpty = false := by
      cases parts with
      | nil => exact absurd rfl hne
      | cons q qs => rfl
    unfold Railway.gmdRender
    rw [herr]
    dsimp only
    rw [hparts, hempty]
    simp only [Bool.false_eq_true, if_false]
    rw [renderParts_eq_concat]
  rcases he : Railway.ensure_token c env.ensureResp tok with ⟨b, tok1, n1⟩
  have hb : b = true := by rw [he] at hens; exact hens
  subst hb
  refine ⟨?_, ?_, ?_, ?_, ?_⟩
  · intro hst hok herr hparts
    unfold Railway.get_model_definition
    rw [he]
    dsimp only
    rw [if_neg hst, if_pos hok]
    rw [hrender env.postJson herr hparts]
  · intro body tok2 k hst hwait herr hparts
    unfold Railway.get_model_definition
    rw [he]
    dsimp only
    rw [if_pos hst]
    dsimp only at hwait
    rw [hwait]
    dsimp only
    rw [hrender body herr hparts]
  · intro p h
    unfold renderPartSpec
    dsimp only
    rw [h]
    simp
  · intro p content h hd
    unfold renderPartSpec
    dsimp only
    rw [h, hd]
    simp
  · intro p e h hd
    unfold renderPartSpec
    dsimp only
    rw [h, hd]
    simp

/-- Witness for C8 at the three-part fixture: the .json part is excluded,
the decodable .tmdl part appears under its banner, the failing .tmdl part
contributes only its inline error note, and the whole output is the
header plus the three contributions in order. -/
theorem claim_C8_witness :
    (Railway.ensure_token credsFull gmdEnvParts.ensureResp "t").1 = true ∧
    partsW ≠ [] ∧
    (Railway.get_model_definition gmdEnvParts credsFull "w" "d" "t").1 =
      Except.ok (gmdHeader ++ concatAll (partsW.map (renderPartSpec gmdEnvParts.decode))) ∧
    renderPartSpec gmdEnvParts.decode (tmdlPart "meta.json" "BBB") = "" ∧
    renderPartSpec gmdEnvParts.decode (tmdlPart "model.tmdl" "AAA") =
      "\n" ++ gmdSep ++ "\n" ++ "File: " ++ "model.tmdl" ++ "\n" ++ gmdSep ++ "\n"
        ++ "decoded AAA" ++ "\n" ∧
    renderPartSpec gmdEnvParts.decode (tmdlPart "bad.tmdl" "ZZZ") =
      "\nError decoding " ++ "bad.tmdl" ++ ": " ++ "Invalid base64" ++ "\n" :=
  ⟨rfl, by simp [partsW],
   (claim_C8_theorem gmdEnvParts credsFull "w" "d" "t" partsW rfl (by simp [partsW])).1
      (by decide) (by decide) rfl rfl,
   (claim_C8_theorem gmdEnvParts credsFull "w" "d" "t" partsW rfl (by simp [partsW])).2.2.1
      (tmdlPart "meta.json" "BBB") (by decide),
   (claim_C8_theorem gmdEnvParts credsFull "w" "d" "t" partsW rfl (by simp [partsW])).2.2.2.1
      (tmdlPart "model.tmdl" "AAA") "decoded AAA" (by decide) rfl,
   (claim_C8_theorem gmdEnvParts credsFull "w" "d" "t" partsW rfl (by simp [partsW])).2.2.2.2
      (tmdlPart "bad.tmdl" "ZZZ") "Invalid base64" (by decide) rfl⟩

/-- C9: when the query POST succeeds with a body that carries no error
key, execute_dax_query returns the indent-2 pretty-printed JSON
serialization of exactly the tables value of the first element of the
results array when that array is non-empty and its first element has a
tables key; an empty (or absent) results array, or a first element
lacking tables, returns the fixed "No data returned". -/
theorem claim_C9_theorem (env : MkEnv) (c : Creds) (ws ds q tok : String) (body : J)
    (hres : (Railway.make_request env c
        (POWERBI_API ++ "/groups/" ++ ws ++ "/datasets/" ++ ds ++ "/executeQueries")
        "POST" (some (daxBody q)) tok).result = body)
    (herr : body.lookup "error" = none) :
    (∀ r0 rest t, body.getD "results" (J.arr []) = J.arr (r0 :: rest) →
      r0.lookup "tables" = some t →
      (Railway.execute_dax_query env c ws ds q tok).1 = Except.ok (J.dumps 0 t)) ∧
    (body.getD "results" (J.arr []) = J.arr [] →
      (Railway.execute_dax_query env c ws ds q tok).1 = Except.ok "No data returned") ∧
    (∀ r0 rest, body.getD "results" (J.arr []) = J.arr (r0 :: rest) →
      r0.lookup "tables" = none →
      (Railway.execute_dax_query env c ws ds q tok).1 = Except.ok "No data returned") := by
  refine ⟨?_, ?_, ?_⟩
  · intro r0 rest t hlist htab
    unfold Railway.execute_dax_query
    dsimp only
    rw [hres, herr]
    dsimp only
    rw [hlist]
    dsimp only [J.asList]
    rw [htab]
  · intro hlist
    unfold Railway.execute_dax_query
    dsimp only
    rw [hres, herr]
    dsimp only
    rw [hlist]
    rfl
  · intro r0 rest hlist htab
    unfold Railway.execute_dax_query
    dsimp only
    rw [hres, herr]
    dsimp only
    rw [hlist]
    dsimp only [J.asList]
    rw [htab]

/-- Witness for C9 at the fixture mkEnvDax: the stubbed response
carries results:[{tables: ...}] and the tool returns exactly the
serialized tables value; a second application at mkEnvCalm, whose body
has an empty results array, returns "No data returned". -/
theorem claim_C9_witness :
    (Railway.make_request mkEnvDax credsFull
        (POWERBI_API ++ "/groups/" ++ "w" ++ "/datasets/" ++ "d" ++ "/executeQueries")
        "POST" (some (daxBody "EVALUATE T")) "t").result = daxBodyJ ∧
    daxBodyJ.lookup "error" = none ∧
    (Railway.execute_dax_query mkEnvDax credsFull "w" "d" "EVALUATE T" "t").1 =
      Except.ok (J.dumps 0 daxTablesW) ∧
    (Railway.execute_dax_query mkEnvCalm credsFull "w" "d" "EVALUATE T" "t").1 =
      Except.ok "No data returned" :=
  ⟨rfl, rfl,
   (claim_C9_theorem mkEnvDax credsFull "w" "d" "EVALUATE T" "t" daxBodyJ rfl rfl).1
      (J.obj [("tables", daxTablesW)]) [] daxTablesW rfl rfl,
   (claim_C9_theorem mkEnvCalm credsFull "w" "d" "EVALUATE T" "t"
      (J.obj [("value", J.arr []), ("results", J.arr [])]) rfl rfl).2.1 rfl⟩

end McpBi
